import Mathlib

/-!
Verification of the chat orchestration and persistence core of the
RAG golf agent (FastAPI service `main.py`, `src/chat_history.py`,
`src/agent_function.py`, and the tool layer under `tools/`).

The embedding is a shallow model of the Python source:
* strings are Lean `String`s manipulated through their character lists,
  so that every definition evaluates inside the kernel;
* the Supabase store is a pair of row lists (`chat_by_user`,
  `history_by_chat`); an insert that "returns no data" is modelled by a
  Boolean acknowledgement flag, `false` meaning the row was not committed;
* Python exceptions are values of `PyErr`; a function that can raise
  returns `Except PyErr _`;
* timestamps are kept as the millisecond integers the handler generates
  (`int(datetime.utcnow().timestamp() * 1000)`); the conversion to an ISO
  string performed by `save_conversation` is value- and order-preserving,
  so the model stores the integer itself.
-/

/-- Python exception values distinguished by the orchestration code:
`ValueError` (mapped to 400-class errors) and `RuntimeError`
(store write failures, mapped to 500-class errors). -/
inductive PyErr where
  | valueError (msg : String)
  | runtimeError (msg : String)
deriving DecidableEq

/-- `str(e)` of a Python exception: its message. -/
def PyErr.message : PyErr → String
  | .valueError m => m
  | .runtimeError m => m

/-- Whitespace characters removed by Python `str.strip()` (ASCII part). -/
def pyIsSpace (c : Char) : Bool :=
  c == ' ' || c == '\t' || c == '\n' || c == '\r' || c == '\x0b' || c == '\x0c'

/-- Python `str.strip()` on a character list. -/
def pyStripL (l : List Char) : List Char :=
  ((l.dropWhile pyIsSpace).reverse.dropWhile pyIsSpace).reverse

/-- Python `str.strip()`. -/
def pyStrip (s : String) : String :=
  (pyStripL s.toList).asString

/-- Remove every occurrence of `sub` from the list (Python
`str.replace(sub, "")`), fuel-indexed so the kernel evaluates it;
`fuel` is always instantiated with the length of the list. -/
def removeSubAux (sub : List Char) : Nat → List Char → List Char
  | _, [] => []
  | 0, l => l
  | fuel + 1, c :: cs =>
    if sub.isPrefixOf (c :: cs) && !sub.isEmpty then
      removeSubAux sub fuel ((c :: cs).drop sub.length)
    else
      c :: removeSubAux sub fuel cs

/-- Python `str.replace(sub, "")`. -/
def pyReplaceDel (l : List Char) (sub : List Char) : List Char :=
  removeSubAux sub l.length l

/-- Curly brace characters stripped by `str.strip('\x7b\x7d')` in
`uuid.UUID.__init__`. -/
def isBrace (c : Char) : Bool := c == '\x7b' || c == '\x7d'

/-- Hexadecimal digit test (Python `int(hex, 16)` on single digits). -/
def isHexit (c : Char) : Bool :=
  c.isDigit || ('a' ≤ c && c ≤ 'f') || ('A' ≤ c && c ≤ 'F')

/-- Normalisation performed by Python `uuid.UUID(hex)`: drop `urn:` and
`uuid:` occurrences, strip surrounding braces, remove hyphens. -/
def uuidNormalize (s : String) : List Char :=
  let l1 := pyReplaceDel (pyReplaceDel s.toList "urn:".toList) "uuid:".toList
  let l2 := ((l1.dropWhile isBrace).reverse.dropWhile isBrace).reverse
  l2.filter (fun c => c ≠ '-')

/-- Whether `uuid.UUID(s)` succeeds: 32 hexadecimal digits after
normalisation. -/
def isUUID (s : String) : Bool :=
  let t := uuidNormalize s
  t.length == 32 && t.all isHexit

/-- Python `str.split(",")` on a character list. -/
def splitComma : List Char → List (List Char)
  | [] => [[]]
  | c :: cs =>
    match splitComma cs with
    | [] => [[c]]
    | r :: rs => if c = ',' then [] :: r :: rs else (c :: r) :: rs

/-- Decimal digit run to a number; `none` on the empty run or a
non-digit. -/
def digitsToNat (l : List Char) : Option Nat :=
  if l.isEmpty then none
  else l.foldl
    (fun acc c =>
      acc.bind (fun n => if c.isDigit then some (10 * n + (c.toNat - 48)) else none))
    (some 0)

/-- Python `int(x)` on a string: strip whitespace, optional sign, decimal
digits; raises `ValueError` otherwise. -/
def pyInt (x : String) : Except PyErr Int :=
  let t := pyStripL x.toList
  let fail : Except PyErr Int :=
    .error (.valueError ("invalid literal for int() with base 10: " ++ x))
  match t with
  | '-' :: ds =>
    match digitsToNat ds with
    | some n => .ok (-(n : Int))
    | none => fail
  | '+' :: ds =>
    match digitsToNat ds with
    | some n => .ok (n : Int)
    | none => fail
  | ds =>
    match digitsToNat ds with
    | some n => .ok (n : Int)
    | none => fail

/-- Python `str.ljust`. -/
def pyLjust (s : String) (w : Nat) : String :=
  s ++ (List.replicate (w - s.length) ' ').asString

/-- Python format spec `:>w` (right justification). -/
def pyRjust (s : String) (w : Nat) : String :=
  (List.replicate (w - s.length) ' ').asString ++ s

/-- Python `str.lower()` (ASCII part, as used on role strings). -/
def pyLower (s : String) : String :=
  (s.toList.map Char.toLower).asString

/-! ## Store model (`chat_by_user` and `history_by_chat` tables) -/

/-- A row of the `chat_by_user` table. -/
structure ChatRow where
  chat_id : String
  user_id : String
  title : Option String
deriving DecidableEq

/-- A row of the `history_by_chat` table.  `created` is the millisecond
timestamp encoded by the stored ISO string. -/
structure MessageRow where
  chat_id : String
  history_id : String
  role : String
  content : String
  created : Int
deriving DecidableEq

/-- The Supabase store visible to `ChatHistoryManager`. -/
structure Store where
  chats : List ChatRow
  history : List MessageRow
deriving DecidableEq

/-! ## ChatHistoryManager -/

/-- Title derivation in `get_or_create_chat`:
`title = first_message[:100].strip()`, then `"..."` is appended when
`len(first_message) > 100`. -/
def titleOf (first_message : String) : String :=
  let t := (pyStripL (first_message.toList.take 100)).asString
  if 100 < first_message.length then t ++ "..." else t

/-- The body of the `try` block of `get_or_create_chat` when a chat id is
supplied: `UUID(chat_id)` (raises `ValueError` when malformed), then a
select on `chat_by_user`; a missing chat raises
`ValueError(f"Chat {chat_id} not found")` — still inside the `try`. -/
def lookupChatInner (store : Store) (cid : String) : Except PyErr String :=
  if !isUUID cid then
    .error (.valueError "badly formed hexadecimal UUID string")
  else if store.chats.any (fun c => c.chat_id == cid) then
    .ok cid
  else
    .error (.valueError ("Chat " ++ cid ++ " not found"))

/-- The new-chat branch of `get_or_create_chat`: derive the title from the
first message (`if first_message:` — the empty string is falsy), insert
into `chat_by_user`; an insert returning no data raises
`RuntimeError("Failed to create new chat")`. -/
def createNewChat (store : Store) (user_id : String) (first_message : Option String)
    (newChatId : String) (insertAck : Bool) : Except PyErr String × Store :=
  let title : Option String :=
    match first_message with
    | some m => if m = "" then none else some (titleOf m)
    | none => none
  if insertAck then
    (.ok newChatId,
     { store with chats := store.chats ++ [⟨newChatId, user_id, title⟩] })
  else
    (.error (.runtimeError "Failed to create new chat"), store)

/-- `ChatHistoryManager.get_or_create_chat`.  `newChatId` stands for the
`uuid4()` the method generates; `insertAck` for whether the chat insert
returns data.  The `except ValueError` around the lookup catches both the
malformed-UUID error and the internal "not found" error and re-raises
`ValueError(f"Invalid chat_id format: {chat_id}")`. -/
def get_or_create_chat (store : Store) (user_id : String) (chat_id : Option String)
    (first_message : Option String) (newChatId : String) (insertAck : Bool) :
    Except PyErr String × Store :=
  if !isUUID user_id then
    (.error (.valueError ("Invalid user_id format: " ++ user_id)), store)
  else
    match chat_id with
    | some cid =>
      if cid = "" then
        createNewChat store user_id first_message newChatId insertAck
      else
        match lookupChatInner store cid with
        | .ok c => (.ok c, store)
        | .error (.valueError _) =>
          (.error (.valueError ("Invalid chat_id format: " ++ cid)), store)
        | .error e => (.error e, store)
    | none => createNewChat store user_id first_message newChatId insertAck

/-- Roles as `llama_index` `MessageRole` values. -/
inductive MessageRole where
  | user
  | assistant
  | system
deriving DecidableEq

/-- An in-memory `ChatMessage` handed to the agent. -/
structure ChatMsg where
  role : MessageRole
  content : String
deriving DecidableEq

/-- Row-to-`ChatMessage` conversion in `get_chat_history`: lower-case the
stored role, map the three known roles, default anything else to `USER`. -/
def rowToChatMsg (row : MessageRow) : ChatMsg :=
  let role_str := pyLower row.role
  let role :=
    if role_str = "user" then MessageRole.user
    else if role_str = "assistant" then MessageRole.assistant
    else if role_str = "system" then MessageRole.system
    else MessageRole.user
  ⟨role, row.content⟩

/-- The store query of `get_chat_history`: rows of the chat ordered by
`created` descending (`.order("created", desc=True)`), limited to
`limit`. -/
def recentRows (store : Store) (cid : String) (limit : Nat) : List MessageRow :=
  ((store.history.filter (fun r => r.chat_id == cid)).insertionSort
    (fun a b => b.created ≤ a.created)).take limit

/-- `ChatHistoryManager.get_chat_history`: validate the chat id, fetch the
`limit` most recent rows (descending), convert, then `messages.reverse()`
to chronological order. -/
def get_chat_history (store : Store) (chat_id : String) (limit : Nat) :
    Except PyErr (List ChatMsg) :=
  if !isUUID chat_id then
    .error (.valueError ("Invalid chat_id format: " ++ chat_id))
  else
    .ok (((recentRows store chat_id limit).map rowToChatMsg).reverse)

/-- `ChatHistoryManager.save_conversation`: validate the three UUIDs,
insert the user row, fail with `RuntimeError` when it is not acknowledged,
then insert the assistant row, fail with `RuntimeError` when that one is
not acknowledged (the user row stays).  The final store is returned next
to the outcome so partial failure is observable. -/
def save_conversation (store : Store) (chat_id user_message assistant_message
    user_message_id assistant_message_id : String)
    (created_user created_assistant : Int) (ack1 ack2 : Bool) :
    Except PyErr Unit × Store :=
  if !(isUUID chat_id && isUUID user_message_id && isUUID assistant_message_id) then
    (.error (.valueError "Invalid UUID format"), store)
  else
    if !ack1 then
      (.error (.runtimeError ("Failed to save user message to chat " ++ chat_id)), store)
    else
      let store1 :=
        { store with history := store.history ++
            [⟨chat_id, user_message_id, "user", user_message, created_user⟩] }
      if !ack2 then
        (.error (.runtimeError ("Failed to save assistant message to chat " ++ chat_id)),
         store1)
      else
        (.ok (),
         { store1 with history := store1.history ++
             [⟨chat_id, assistant_message_id, "assistant", assistant_message,
               created_assistant⟩] })

/-! ## Agent streaming wrapper (`GolfRAGAgentFunction.chat_streaming`) -/

/-- How the agent's event stream ends, as observed by the consumer of
`handler.stream_events()`: normal completion, an exception raised by the
agent (any `Exception`), or an `asyncio.CancelledError` thrown in at the
awaited point when the client disconnects. -/
inductive AgentEnd where
  | done
  | raised (msg : String)
  | cancelled
deriving DecidableEq

/-- One run of the agent: the `delta` payloads observed before the stream
ends, and how it ends. -/
structure AgentBehavior where
  deltas : List String
  ending : AgentEnd
deriving DecidableEq

/-- How `chat_streaming`, as an async generator, terminates for its
consumer: normally, or by propagating `CancelledError` (which its
`except Exception` does not catch). -/
inductive StreamEnd where
  | completedEnd
  | cancelledEnd
deriving DecidableEq

/-- The fallback chunk produced by `chat_streaming`'s `except Exception`
handler. -/
def apologyOf (msg : String) : String :=
  "I apologize, but I encountered an error: " ++ msg

/-- `GolfRAGAgentFunction.chat_streaming`: forwards every non-empty delta
(`if hasattr(event, "delta") and event.delta`); an exception raised by the
agent is caught by `except Exception` and turned into one final apology
chunk, after which the generator completes normally; a cancellation
propagates through (it is not an `Exception`) after the `finally` cleanup,
yielding nothing further. -/
def chat_streaming (b : AgentBehavior) : List String × StreamEnd :=
  let chunks := b.deltas.filter (fun d => d ≠ "")
  match b.ending with
  | .done => (chunks, .completedEnd)
  | .raised msg => (chunks ++ [apologyOf msg], .completedEnd)
  | .cancelled => (chunks, .cancelledEnd)

/-! ## The `/chat/stream` event generator (`main.py`) -/

/-- Server-sent events emitted by `event_generator`; the `metadata`
payload is modelled structurally instead of as its JSON encoding. -/
inductive SSEEvent where
  | message (data : String)
  | metadata (chat_id : String) (history_id : String) (created : Int)
  | error (data : String)
deriving DecidableEq

/-- How the generator coroutine itself ends: ran to completion, or
propagated the client's cancellation (re-raised by
`except asyncio.CancelledError: raise`, caught by neither
`except ValueError` nor `except Exception`). -/
inductive GenOutcome where
  | completed
  | cancelled
deriving DecidableEq

/-- Per-request data of one `/chat/stream` turn: the request fields, the
identifiers and clock value generated before streaming
(`uuid4()`, `int(datetime.utcnow().timestamp() * 1000)`), the insert
acknowledgement flags of the store, and the agent's behaviour. -/
structure TurnInput where
  user_id : String
  chat_id : Option String
  message : String
  newChatId : String
  userMessageId : String
  assistantMessageId : String
  createdUser : Int
  chatInsertAck : Bool
  userInsertAck : Bool
  assistantInsertAck : Bool
  agent : AgentBehavior
deriving DecidableEq

/-- The outer handlers of `event_generator`: `except ValueError` emits the
bare message, `except Exception` prefixes `"Internal error: "`. -/
def outerErrEvent : PyErr → SSEEvent
  | .valueError m => .error m
  | .runtimeError m => .error ("Internal error: " ++ m)

/-- `event_generator` in the `/chat/stream` handler: resolve or create the
chat, load the history window, generate the two message ids and the two
timestamps (`created_assistant = created_user + 1`) before streaming,
forward each chunk as a `message` event while accumulating it, and after
the loop either do nothing (whitespace-only response), or save both
messages and emit the `metadata` event, or emit an in-band `error` event
when the save raises; a cancellation propagates with nothing further
emitted and nothing saved. -/
def event_generator (store : Store) (inp : TurnInput) (limit : Nat) :
    List SSEEvent × GenOutcome × Store :=
  match get_or_create_chat store inp.user_id inp.chat_id
      (if inp.chat_id.isNone then some inp.message else none)
      inp.newChatId inp.chatInsertAck with
  | (.error e, store0) => ([outerErrEvent e], .completed, store0)
  | (.ok chatId, store0) =>
    match get_chat_history store0 chatId limit with
    | .error e => ([outerErrEvent e], .completed, store0)
    | .ok _chatHistory =>
      let createdAssistant := inp.createdUser + 1
      let (chunks, sEnd) := chat_streaming inp.agent
      let msgEvents := chunks.map SSEEvent.message
      match sEnd with
      | .cancelledEnd => (msgEvents, .cancelled, store0)
      | .completedEnd =>
        let assistantResponse := String.join chunks
        if pyStrip assistantResponse ≠ "" then
          match save_conversation store0 chatId inp.message assistantResponse
              inp.userMessageId inp.assistantMessageId inp.createdUser createdAssistant
              inp.userInsertAck inp.assistantInsertAck with
          | (.ok _, store1) =>
            (msgEvents ++ [.metadata chatId inp.assistantMessageId createdAssistant],
             .completed, store1)
          | (.error e, store1) =>
            (msgEvents ++ [.error ("Failed to save conversation: " ++ e.message)],
             .completed, store1)
        else
          (msgEvents, .completed, store0)

/-! ## Tool layer (`tools/scorecards.py`, `tools/tee_details.py`,
`tools/golf_courses.py`) -/

/-- `_parse_csv_numbers`: `[]` for a falsy value, otherwise
`[int(x) for x in value.split(",") if x.strip()]`; `int` may raise. -/
def parseCsvNumbers (value : String) : Except PyErr (List Int) :=
  if value = "" then .ok []
  else
    ((splitComma value.toList).map List.asString
      |>.filter (fun x => pyStrip x ≠ "")).mapM pyInt

/-- A row of `igolf_scorecard_by_course`; every field is read through
`row.get(key, "")`, so missing columns are the empty string. -/
structure ScorecardRow where
  men_hcp_hole : String
  men_par_hole : String
  wmn_hcp_hole : String
  wmn_par_hole : String
  men_par_in : String
  men_par_out : String
  men_par_total : String
  wmn_par_in : String
  wmn_par_out : String
  wmn_par_total : String
deriving DecidableEq

/-- `len([p for p in l if p > 0])`. -/
def countPositive (l : List Int) : Nat := (l.filter (fun p => 0 < p)).length

/-- `num_holes` in `_generate_markdown_scorecard`: the maximum count of
positive entries over the four parsed per-hole lists (the source lists the
arguments in the order men par, women par, men hcp, women hcp). -/
def numHolesOf (men_hcp men_par women_hcp women_par : List Int) : Nat :=
  max (max (countPositive men_par) (countPositive women_par))
      (max (countPositive men_hcp) (countPositive women_hcp))

/-- The nested `_pad` helper: truncate to `num_holes`, right-pad with `0`,
stringify. -/
def padTo (num_holes : Nat) (values : List Int) : List String :=
  let padded := values.take num_holes
  (padded ++ List.replicate (num_holes - padded.length) 0).map toString

/-- `max(len(v) for v in l) if l else 1`. -/
def maxWidth (l : List String) : Nat :=
  if l.isEmpty then 1 else (l.map String.length).foldl max 0

/-- One per-hole row of the scorecard table.  The source indexes the
padded lists with `l[idx]`; the model reads them with `getD`, and the
safety theorem below shows the fallback is never reached because every
padded list has length `num_holes`. -/
def scorecardRowLine (idx : Nat) (men_par men_hcp women_par women_hcp : List String)
    (wmp wmh wwp wwh : Nat) : String :=
  "| " ++ pyRjust (toString (idx + 1)) 2 ++ " " ++
  "| " ++ pyLjust (men_par.getD idx "") wmp ++ " " ++
  "| " ++ pyLjust (men_hcp.getD idx "") wmh ++ " " ++
  "| " ++ pyLjust (women_par.getD idx "") wwp ++ " " ++
  "| " ++ pyLjust (women_hcp.getD idx "") wwh ++ " |"

/-- One footer row of the scorecard table; `men_val` and `women_val`
arrive already left-justified (`str(row.get(key, "")).ljust(...)`). -/
def scorecardFooterLine (label men_val women_val : String)
    (wmh wwh : Nat) : String :=
  "| **" ++ label ++ "** " ++
  "| " ++ men_val ++ " | " ++ (List.replicate wmh ' ').asString ++ " " ++
  "| " ++ women_val ++ " | " ++ (List.replicate wwh ' ').asString ++ " |"

/-- `_generate_markdown_scorecard`; `int` parse errors propagate (they are
caught by `_execute`). -/
def generateMarkdownScorecard (rows : List ScorecardRow) : Except PyErr String :=
  match rows with
  | [] => .ok "No scorecard information was found for that course."
  | row :: _ => do
    let men_hcp0 ← parseCsvNumbers row.men_hcp_hole
    let men_par0 ← parseCsvNumbers row.men_par_hole
    let women_hcp0 ← parseCsvNumbers row.wmn_hcp_hole
    let women_par0 ← parseCsvNumbers row.wmn_par_hole
    let num_holes := numHolesOf men_hcp0 men_par0 women_hcp0 women_par0
    if num_holes = 0 then
      return "Scorecard data was found but no hole-by-hole values were populated."
    let men_hcp := padTo num_holes men_hcp0
    let men_par := padTo num_holes men_par0
    let women_hcp := padTo num_holes women_hcp0
    let women_par := padTo num_holes women_par0
    let max_men_par := maxWidth men_par
    let max_men_hcp := maxWidth men_hcp
    let max_wmn_par := maxWidth women_par
    let max_wmn_hcp := maxWidth women_hcp
    let header :=
      "| Holes | Men Par | Men Hcp | Women Par | Women Hcp |\n" ++
      "|-------|---------|---------|-----------|-----------|"
    let rows_md := (List.range num_holes).map (fun idx =>
      scorecardRowLine idx men_par men_hcp women_par women_hcp
        max_men_par max_men_hcp max_wmn_par max_wmn_hcp)
    let footer :=
      [scorecardFooterLine "Par In" (pyLjust row.men_par_in max_men_par)
         (pyLjust row.wmn_par_in max_wmn_par) max_men_hcp max_wmn_hcp,
       scorecardFooterLine "Par Out" (pyLjust row.men_par_out max_men_par)
         (pyLjust row.wmn_par_out max_wmn_par) max_men_hcp max_wmn_hcp,
       scorecardFooterLine "Par Total" (pyLjust row.men_par_total max_men_par)
         (pyLjust row.wmn_par_total max_wmn_par) max_men_hcp max_wmn_hcp]
    return String.intercalate "\n"
      ("### Scorecard Details" :: header :: rows_md ++ footer)

/-- The fallback of `ScorecardTool._execute`'s `except Exception`. -/
def scorecardErrorMsg : String :=
  "I couldn\x27t retrieve scorecard data right now. Please try again later."

/-- `ScorecardTool._execute`: run the fetch and the markdown generation
inside `try`, convert any exception into the fixed apology string. -/
def scorecardExecute (fetchResult : Except PyErr (List ScorecardRow)) :
    Except PyErr String :=
  match fetchResult.bind generateMarkdownScorecard with
  | .ok s => .ok s
  | .error _ => .ok scorecardErrorMsg

/-- A row of `igolf_tee_detail_by_course`; fields the source reads with a
plain `row.get(key)` are `Option`s (a missing column is `None`). -/
structure TeeRow where
  teename : Option String
  ydshole : String
  ydstotal : Option String
  ratingmen : Option String
  slopemen : Option String
  ratingwomen : Option String
  slopewomen : Option String
deriving DecidableEq

/-- The per-tee record stored in the `tees` dict. -/
structure TeeInfo where
  yardages : List Int
  total : Option String
  menRating : Option String
  menSlope : Option String
  womenRating : Option String
  womenSlope : Option String
deriving DecidableEq

/-- Python dict assignment `tees[key] = info`: replace in place when the
key exists (keeping its first-insertion position), append otherwise. -/
def upsert (tees : List (String × TeeInfo)) (key : String) (info : TeeInfo) :
    List (String × TeeInfo) :=
  if tees.any (fun kv => kv.1 == key) then
    tees.map (fun kv => if kv.1 == key then (key, info) else kv)
  else tees ++ [(key, info)]

/-- `x or d` on an optional string under Python truthiness. -/
def pyOrStr (x : Option String) (d : String) : String :=
  match x with
  | none => d
  | some s => if s = "" then d else s

/-- The row loop of `_generate_markdown_tees`: skip rows with a falsy
`ydshole`, parse the yardage CSV (`int` may raise), skip rows whose parse
yields nothing, track the running `num_holes` maximum and fill the `tees`
dict. -/
def collectTees (rows : List TeeRow) :
    Except PyErr (List (String × TeeInfo) × Nat) :=
  rows.foldlM
    (fun acc row => do
      let (tees, num_holes) := acc
      if row.ydshole = "" then
        return acc
      let yardages ←
        ((splitComma row.ydshole.toList).map List.asString
          |>.filter (fun v => pyStrip v ≠ "")).mapM pyInt
      if yardages.isEmpty then
        return acc
      let num_holes := max num_holes yardages.length
      return (upsert tees (row.teename.getD "Unnamed Tee")
        ⟨yardages, row.ydstotal, row.ratingmen, row.slopemen,
          row.ratingwomen, row.slopewomen⟩,
        num_holes))
    ([], 0)

/-- `_generate_markdown_tees`. -/
def generateMarkdownTees (rows : List TeeRow) : Except PyErr String :=
  match rows with
  | [] => .ok "No tee details were found for that course."
  | _ => do
    let (tees, num_holes) ← collectTees rows
    if tees.isEmpty || num_holes == 0 then
      return "Tee details were available but could not be parsed."
    let tee_names := tees.map (fun kv => kv.1)
    let header1 := "| Hole | " ++ String.intercalate " | " tee_names ++ " |"
    let header2 :=
      "|------|" ++ String.intercalate "|" (tee_names.map (fun _ => "------")) ++ "|"
    let rows_md := (List.range num_holes).map (fun idx =>
      "| " ++ pyRjust (toString (idx + 1)) 2 ++ " | " ++
      String.intercalate " | "
        (tees.map (fun kv =>
          match kv.2.yardages.get? idx with
          | some v => toString v
          | none => "")) ++ " |")
    let total_row := "| Total | " ++
      String.intercalate " | " (tees.map (fun kv => pyOrStr kv.2.total "")) ++ " |"
    let rating_row := "| Men CR/Slope | " ++
      String.intercalate " | "
        (tees.map (fun kv =>
          pyOrStr kv.2.menRating "N/A" ++ "/" ++ pyOrStr kv.2.menSlope "N/A")) ++ " |"
    let women_row := "| Women CR/Slope | " ++
      String.intercalate " | "
        (tees.map (fun kv =>
          pyOrStr kv.2.womenRating "N/A" ++ "/" ++ pyOrStr kv.2.womenSlope "N/A")) ++
      " |"
    return String.intercalate "\n"
      (["### Tee Details", header1, header2] ++ rows_md ++
        [total_row, rating_row, women_row])

/-- The fallback of `TeeDetailsTool._execute`'s `except Exception`. -/
def teeErrorMsg : String :=
  "I couldn\x27t retrieve tee information right now. Please try again later."

/-- `TeeDetailsTool._execute`. -/
def teeExecute (fetchResult : Except PyErr (List TeeRow)) : Except PyErr String :=
  match fetchResult.bind generateMarkdownTees with
  | .ok s => .ok s
  | .error _ => .ok teeErrorMsg

/-- Node metadata read by `GolfCoursesTool._execute` through
`meta.get(...)`. -/
structure NodeMeta where
  courseName : Option String
  id_course : Option String
  city : Option String
  state : Option String
  latitude : Option String
  longitude : Option String
deriving DecidableEq

/-- The query engine's response: the synthesized summary (`str(response)`)
plus the source nodes. -/
structure GolfQueryResponse where
  summary : String
  source_nodes : List NodeMeta
deriving DecidableEq

/-- One bullet line of the top-matches list. -/
def golfNodeLine (meta : NodeMeta) : String :=
  let course_name := meta.courseName.getD "Unknown course"
  let course_id := meta.id_course.getD "N/A"
  let city := meta.city.getD ""
  let state := meta.state.getD ""
  let latitude := meta.latitude.getD ""
  let longitude := meta.longitude.getD ""
  "- " ++ course_name ++ " (id_course: " ++ course_id ++ ")" ++
  (if city ≠ "" || state ≠ "" then " — " ++ city ++ ", " ++ state else "") ++
  (if latitude ≠ "" || longitude ≠ "" then " — " ++ latitude ++ ", " ++ longitude
   else "")

/-- Formatting of a successful golf query: the bare summary when there are
no source nodes (`if getattr(response, "source_nodes", None):`), otherwise
summary, a heading and the first five matches joined by newlines. -/
def golfFormatResponse (resp : GolfQueryResponse) : String :=
  if resp.source_nodes.isEmpty then resp.summary
  else
    String.intercalate "\n"
      (resp.summary :: "\nTop course matches:" ::
        (resp.source_nodes.take 5).map golfNodeLine)

/-- The early return of `GolfCoursesTool._execute` when the query engine
was never initialised. -/
def golfUnavailableMsg : String := "Golf courses search is currently unavailable."

/-- `GolfCoursesTool._execute`: `none` models a missing
`golf_query_engine`; otherwise the query either produced a response or
raised, and the `except Exception` turns the latter into an error
string. -/
def golfExecute (engine : Option (Except PyErr GolfQueryResponse)) :
    Except PyErr String :=
  match engine with
  | none => .ok golfUnavailableMsg
  | some (.ok resp) => .ok (golfFormatResponse resp)
  | some (.error e) =>
    .ok ("Sorry, I encountered an error while searching golf courses: " ++ e.message)

/-! ## Shared lemmas and concrete identifiers -/

deriving instance DecidableEq for Except

/-- Canonical well-formed identifiers used by the concrete witnesses. -/
def uuidA : String := "11111111-1111-4111-8111-111111111111"

def uuidB : String := "22222222-2222-4222-8222-222222222222"

def uuidC : String := "33333333-3333-4333-8333-333333333333"

def uuidD : String := "44444444-4444-4444-8444-444444444444"

/-- Resolving or creating a chat never writes to `history_by_chat`. -/
theorem get_or_create_history_eq (store : Store) (u : String) (c : Option String)
    (f : Option String) (n : String) (a : Bool) :
    ((get_or_create_chat store u c f n a).2).history = store.history := by
  unfold get_or_create_chat createNewChat
  repeat' split <;> try rfl

/-- Shape of a completed turn with a non-whitespace response and both
inserts acknowledged: the message events followed by one `metadata`
event, and the two freshly built rows appended to the history. -/
theorem event_generator_success_eq
    (store : Store) (inp : TurnInput) (limit : Nat) (cid : String) (store0 : Store)
    (hres : get_or_create_chat store inp.user_id inp.chat_id
      (if inp.chat_id.isNone then some inp.message else none)
      inp.newChatId inp.chatInsertAck = (.ok cid, store0))
    (hcid : isUUID cid = true)
    (hcomplete : (chat_streaming inp.agent).2 = .completedEnd)
    (hnonempty : pyStrip (String.join (chat_streaming inp.agent).1) ≠ "")
    (hu : isUUID inp.userMessageId = true)
    (ha : isUUID inp.assistantMessageId = true)
    (hack1 : inp.userInsertAck = true)
    (hack2 : inp.assistantInsertAck = true) :
    event_generator store inp limit =
      ((chat_streaming inp.agent).1.map SSEEvent.message ++
        [SSEEvent.metadata cid inp.assistantMessageId (inp.createdUser + 1)],
       .completed,
       { store0 with history := store.history ++
          [⟨cid, inp.userMessageId, "user", inp.message, inp.createdUser⟩,
           ⟨cid, inp.assistantMessageId, "assistant",
             String.join (chat_streaming inp.agent).1, inp.createdUser + 1⟩] }) := by
  have hhist0 : store0.history = store.history := by
    have h := get_or_create_history_eq store inp.user_id inp.chat_id
      (if inp.chat_id.isNone then some inp.message else none)
      inp.newChatId inp.chatInsertAck
    rw [hres] at h
    exact h
  unfold event_generator
  rw [hres]
  rcases hcs : chat_streaming inp.agent with ⟨chunks, se⟩
  rw [hcs] at hcomplete hnonempty
  simp only at hcomplete
  subst hcomplete
  simp only [get_chat_history, hcid, Bool.not_true, Bool.false_eq_true, if_false,
    save_conversation, hu, ha, hack1, hack2, Bool.and_self, Bool.not_false, if_true]
  rw [if_pos hnonempty]
  simp [hhist0]

/-! ## Claims -/

/-- C1: for every turn whose streaming loop completes and whose
concatenated assistant output is non-empty after trimming, and for which
the store acknowledges both inserts, exactly two new messages (one user,
one assistant) are appended to the history, the assistant row's timestamp
is the user row's timestamp plus exactly 1 millisecond
(`created_assistant = created_user + 1`), and the `metadata` event carries
the same message identifier (`inp.assistantMessageId`) and the same
timestamp (`inp.createdUser + 1`) as the persisted assistant row. -/
theorem turn_success_persists_message_pair
    (store : Store) (inp : TurnInput) (limit : Nat) (cid : String) (store0 : Store)
    (hres : get_or_create_chat store inp.user_id inp.chat_id
      (if inp.chat_id.isNone then some inp.message else none)
      inp.newChatId inp.chatInsertAck = (.ok cid, store0))
    (hcid : isUUID cid = true)
    (hcomplete : (chat_streaming inp.agent).2 = .completedEnd)
    (hnonempty : pyStrip (String.join (chat_streaming inp.agent).1) ≠ "")
    (hu : isUUID inp.userMessageId = true)
    (ha : isUUID inp.assistantMessageId = true)
    (hack1 : inp.userInsertAck = true)
    (hack2 : inp.assistantInsertAck = true) :
    event_generator store inp limit =
      ((chat_streaming inp.agent).1.map SSEEvent.message ++
        [SSEEvent.metadata cid inp.assistantMessageId (inp.createdUser + 1)],
       .completed,
       { store0 with history := store.history ++
          [⟨cid, inp.userMessageId, "user", inp.message, inp.createdUser⟩,
           ⟨cid, inp.assistantMessageId, "assistant",
             String.join (chat_streaming inp.agent).1, inp.createdUser + 1⟩] }) :=
  event_generator_success_eq store inp limit cid store0 hres hcid hcomplete
    hnonempty hu ha hack1 hack2

/-- Concrete turn input for the C1 witness: a fresh chat, two streamed
chunks, all inserts acknowledged. -/
def w1Inp : TurnInput :=
  { user_id := uuidA, chat_id := none, message := "hi", newChatId := uuidB,
    userMessageId := uuidC, assistantMessageId := uuidD, createdUser := 1000,
    chatInsertAck := true, userInsertAck := true, assistantInsertAck := true,
    agent := ⟨["Hel", "lo"], .done⟩ }

/-- Witness for C1 at a concrete input. -/
theorem turn_success_persists_message_pair_witness :
    event_generator ⟨[], []⟩ w1Inp 10 =
      ([SSEEvent.message "Hel", SSEEvent.message "lo",
        SSEEvent.metadata uuidB uuidD 1001],
       .completed,
       ⟨[⟨uuidB, uuidA, some "hi"⟩],
        [⟨uuidB, uuidC, "user", "hi", 1000⟩,
         ⟨uuidB, uuidD, "assistant", "Hello", 1001⟩]⟩) := by
  have h := turn_success_persists_message_pair ⟨[], []⟩ w1Inp 10 uuidB
    ⟨[⟨uuidB, uuidA, some "hi"⟩], []⟩
    (by decide) (by decide) (by decide) (by decide) (by decide) (by decide) rfl rfl
  exact h.trans (by decide)

/-- C2: for a well-formed chat identifier, `get_chat_history` returns
exactly `min N limit` messages (`N` the number of stored rows of that
chat), namely the `limit` most recent rows fetched in descending-timestamp
order and then reversed, so the returned sequence is oldest-first: the
creation timestamps along it are non-decreasing. -/
theorem get_chat_history_window
    (store : Store) (chat_id : String) (limit : Nat)
    (hvalid : isUUID chat_id = true) :
    get_chat_history store chat_id limit =
      .ok (((recentRows store chat_id limit).map rowToChatMsg).reverse) ∧
    (((recentRows store chat_id limit).map rowToChatMsg).reverse).length =
      min (store.history.filter (fun r => r.chat_id == chat_id)).length limit ∧
    ((recentRows store chat_id limit).reverse).Pairwise
      (fun a b => a.created ≤ b.created) := by
  refine ⟨?_, ?_, ?_⟩
  · simp [get_chat_history, hvalid]
  · simp [recentRows, List.length_take, List.length_insertionSort, Nat.min_comm]
  · haveI : IsTotal MessageRow (fun a b => b.created ≤ a.created) :=
      ⟨fun a b => le_total b.created a.created⟩
    haveI : IsTrans MessageRow (fun a b => b.created ≤ a.created) :=
      ⟨fun _ _ _ hab hbc => le_trans hbc hab⟩
    have hs :
        ((store.history.filter (fun r => r.chat_id == chat_id)).insertionSort
          (fun a b => b.created ≤ a.created)).Pairwise
          (fun a b => b.created ≤ a.created) :=
      List.sorted_insertionSort _ _
    have ht : (recentRows store chat_id limit).Pairwise
        (fun a b => b.created ≤ a.created) :=
      hs.sublist (List.take_sublist _ _)
    exact (List.pairwise_reverse).mpr ht

/-- Concrete store for the C2 witness: three rows of one chat inserted
out of timestamp order, one row of another chat. -/
def w2Store : Store :=
  ⟨[], [⟨uuidB, uuidC, "user", "m2", 2000⟩,
        ⟨uuidB, uuidD, "assistant", "m3", 3000⟩,
        ⟨uuidB, uuidA, "user", "m1", 1000⟩,
        ⟨uuidC, uuidA, "user", "other", 500⟩]⟩

/-- Witness for C2: the window of size 2 over three stored messages keeps
the two most recent ones in chronological order. -/
theorem get_chat_history_window_witness :
    get_chat_history w2Store uuidB 2 =
      .ok (((recentRows w2Store uuidB 2).map rowToChatMsg).reverse) ∧
    (((recentRows w2Store uuidB 2).map rowToChatMsg).reverse).length =
      min (w2Store.history.filter (fun r => r.chat_id == uuidB)).length 2 ∧
    ((recentRows w2Store uuidB 2).reverse).Pairwise
      (fun a b => a.created ≤ b.created) :=
  get_chat_history_window w2Store uuidB 2 (by decide)

/-- C3: `save_conversation` writes the user row first and the assistant
row second as independent inserts.  If the user insert is not
acknowledged it fails with the user-side `Internal` error and the store is
untouched (no assistant row, for either later acknowledgement); if the
assistant insert is not acknowledged it fails with the assistant-side
`Internal` error while the user row is already committed and stays. -/
theorem save_conversation_sequencing
    (store : Store) (cid um am uid aid : String) (cu ca : Int)
    (h1 : isUUID cid = true) (h2 : isUUID uid = true) (h3 : isUUID aid = true) :
    (∀ b : Bool, save_conversation store cid um am uid aid cu ca false b =
      (.error (.runtimeError ("Failed to save user message to chat " ++ cid)),
       store)) ∧
    save_conversation store cid um am uid aid cu ca true false =
      (.error (.runtimeError ("Failed to save assistant message to chat " ++ cid)),
       { store with history := store.history ++ [⟨cid, uid, "user", um, cu⟩] }) ∧
    save_conversation store cid um am uid aid cu ca true true =
      (.ok (), { store with history := store.history ++
        [⟨cid, uid, "user", um, cu⟩, ⟨cid, aid, "assistant", am, ca⟩] }) := by
  refine ⟨fun b => ?_, ?_, ?_⟩ <;> simp [save_conversation, h1, h2, h3]

/-- Witness for C3 at concrete identifiers and an empty store. -/
theorem save_conversation_sequencing_witness :
    (∀ b : Bool, save_conversation ⟨[], []⟩ uuidB "q" "a" uuidC uuidD 5 6 false b =
      (.error (.runtimeError ("Failed to save user message to chat " ++ uuidB)),
       ⟨[], []⟩)) ∧
    save_conversation ⟨[], []⟩ uuidB "q" "a" uuidC uuidD 5 6 true false =
      (.error (.runtimeError ("Failed to save assistant message to chat " ++ uuidB)),
       ⟨[], [⟨uuidB, uuidC, "user", "q", 5⟩]⟩) ∧
    save_conversation ⟨[], []⟩ uuidB "q" "a" uuidC uuidD 5 6 true true =
      (.ok (), ⟨[], [⟨uuidB, uuidC, "user", "q", 5⟩,
                     ⟨uuidB, uuidD, "assistant", "a", 6⟩]⟩) := by
  have h := save_conversation_sequencing ⟨[], []⟩ uuidB "q" "a" uuidC uuidD 5 6
    (by decide) (by decide) (by decide)
  exact ⟨h.1, h.2.1.trans (by decide), h.2.2.trans (by decide)⟩

/-- C4: for a turn whose streaming loop completes but whose concatenated
output strips to the empty string, the generator emits only the `message`
events for forwarded chunks — no `metadata` event and no `error` event —
ends normally, and persists nothing: the message history is exactly the
one before the turn. -/
theorem empty_output_is_noop
    (store : Store) (inp : TurnInput) (limit : Nat) (cid : String) (store0 : Store)
    (hres : get_or_create_chat store inp.user_id inp.chat_id
      (if inp.chat_id.isNone then some inp.message else none)
      inp.newChatId inp.chatInsertAck = (.ok cid, store0))
    (hcid : isUUID cid = true)
    (hcomplete : (chat_streaming inp.agent).2 = .completedEnd)
    (hempty : pyStrip (String.join (chat_streaming inp.agent).1) = "") :
    event_generator store inp limit =
      ((chat_streaming inp.agent).1.map SSEEvent.message, .completed, store0) ∧
    store0.history = store.history := by
  have hhist0 : store0.history = store.history := by
    have h := get_or_create_history_eq store inp.user_id inp.chat_id
      (if inp.chat_id.isNone then some inp.message else none)
      inp.newChatId inp.chatInsertAck
    rw [hres] at h
    exact h
  refine ⟨?_, hhist0⟩
  unfold event_generator
  rw [hres]
  rcases hcs : chat_streaming inp.agent with ⟨chunks, se⟩
  rw [hcs] at hcomplete hempty
  simp only at hcomplete
  subst hcomplete
  simp only [get_chat_history, hcid, Bool.not_true, Bool.false_eq_true, if_false]
  rw [if_neg (by simp [hempty])]

/-- Concrete turn input for the C4 witness: the agent emits an empty
delta (dropped) and one whitespace chunk. -/
def w4Inp : TurnInput :=
  { user_id := uuidA, chat_id := none, message := "hi", newChatId := uuidB,
    userMessageId := uuidC, assistantMessageId := uuidD, createdUser := 1000,
    chatInsertAck := true, userInsertAck := true, assistantInsertAck := true,
    agent := ⟨["", "  "], .done⟩ }

/-- Witness for C4: a whitespace-only response forwards its chunk but
saves nothing and emits no terminal event. -/
theorem empty_output_is_noop_witness :
    event_generator ⟨[], []⟩ w4Inp 10 =
      ((chat_streaming w4Inp.agent).1.map SSEEvent.message, .completed,
       ⟨[⟨uuidB, uuidA, some "hi"⟩], []⟩) ∧
    (⟨[⟨uuidB, uuidA, some "hi"⟩], []⟩ : Store).history = ([] : List MessageRow) :=
  empty_output_is_noop ⟨[], []⟩ w4Inp 10 uuidB ⟨[⟨uuidB, uuidA, some "hi"⟩], []⟩
    (by decide) (by decide) (by decide) (by decide)

/-- A 150-character first message whose first character is a space. -/
def msg150 : String := (' ' :: List.replicate 149 'a').asString

set_option maxRecDepth 8192 in
/-- Counterexample to C5 as stated: creating a chat with this
150-character first message stores a title of 102 characters, not 103 —
`first_message[:100].strip()` removes the leading space before the
ellipsis is appended. -/
theorem title_truncation_counterexample :
    msg150.length = 150 ∧
    (get_or_create_chat ⟨[], []⟩ uuidA none (some msg150) uuidB true).2.chats =
      [⟨uuidB, uuidA, some (titleOf msg150)⟩] ∧
    (titleOf msg150).length = 102 := by decide

/-- C5 amended: the stored title is the first 100 characters of the first
message with leading and trailing whitespace stripped, plus a 3-character
ellipsis iff the message is longer than 100 characters.  When the first
`min(100, len)` characters start and end with non-whitespace (so the
strip is the identity), the original claim holds: a longer-than-100
message yields exactly 103 characters and a message of at most 100
characters is stored unmodified. -/
theorem title_truncation_amended
    (store : Store) (uid nid m : String) (huid : isUUID uid = true) (hm : m ≠ "")
    (hns : pyStripL (m.toList.take 100) = m.toList.take 100) :
    get_or_create_chat store uid none (some m) nid true =
      (.ok nid,
       { store with chats := store.chats ++ [⟨nid, uid, some (titleOf m)⟩] }) ∧
    titleOf m =
      (m.toList.take 100).asString ++ (if 100 < m.length then "..." else "") ∧
    (100 < m.length → (titleOf m).length = 103) ∧
    (m.length ≤ 100 → titleOf m = m) := by
  have hchars : titleOf m =
      (m.toList.take 100).asString ++ (if 100 < m.length then "..." else "") := by
    unfold titleOf
    rw [hns]
    split <;> simp
  refine ⟨?_, hchars, ?_, ?_⟩
  · simp [get_or_create_chat, createNewChat, huid, hm]
  · intro hlong
    rw [hchars, if_pos hlong]
    have hlen : (m.toList.take 100).length = 100 := by
      rw [List.length_take]
      have : m.toList.length = m.length := rfl
      omega
    have : ((m.toList.take 100).asString).length = 100 := by
      have h2 : ((m.toList.take 100).asString).toList = m.toList.take 100 := rfl
      have h3 : ((m.toList.take 100).asString).length =
          ((m.toList.take 100).asString).toList.length := rfl
      rw [h3, h2, hlen]
    rw [String.length_append, this]
    rfl
  · intro hshort
    rw [hchars, if_neg (by omega)]
    have htake : m.toList.take 100 = m.toList := by
      apply List.take_of_length_le
      have : m.toList.length = m.length := rfl
      omega
    rw [htake, show m.toList.asString = m from rfl]
    simp

/-- Witness for C5 amended: a 150-character message of letters yields a
103-character stored title. -/
theorem title_truncation_amended_witness :
    get_or_create_chat ⟨[], []⟩ uuidA none (some (List.replicate 150 'a').asString)
        uuidB true =
      (.ok uuidB,
       { (⟨[], []⟩ : Store) with chats := [] ++
          [⟨uuidB, uuidA, some (titleOf (List.replicate 150 'a').asString)⟩] }) ∧
    titleOf (List.replicate 150 'a').asString =
      ((List.replicate 150 'a').asString.toList.take 100).asString ++
        (if 100 < (List.replicate 150 'a').asString.length then "..." else "") ∧
    (100 < (List.replicate 150 'a').asString.length →
      (titleOf (List.replicate 150 'a').asString).length = 103) ∧
    ((List.replicate 150 'a').asString.length ≤ 100 →
      titleOf (List.replicate 150 'a').asString = (List.replicate 150 'a').asString) :=
  title_truncation_amended ⟨[], []⟩ uuidA uuidB (List.replicate 150 'a').asString
    (by decide) (by decide) (by decide)

/-- Counterexample to C6 as stated: a well-formed chat identifier that is
absent from the store does not fail with a distinct NotFound error — the
internal "Chat ... not found" `ValueError` is caught by the surrounding
`except ValueError` and re-raised as exactly the same
`Invalid chat_id format` error that a malformed identifier produces. -/
theorem chat_not_found_error_counterexample :
    isUUID uuidC = true ∧
    get_or_create_chat ⟨[], []⟩ uuidA (some uuidC) none uuidB true =
      (.error (.valueError ("Invalid chat_id format: " ++ uuidC)), ⟨[], []⟩) ∧
    get_or_create_chat ⟨[], []⟩ uuidA (some "not-a-uuid") none uuidB true =
      (.error (.valueError "Invalid chat_id format: not-a-uuid"), ⟨[], []⟩) := by
  decide

/-- C6 amended: when a chat identifier is supplied, whether it is
malformed or well-formed but absent from the store, `get_or_create_chat`
fails with the same `InvalidArgument`-class error
`ValueError("Invalid chat_id format: <id>")`, and the store is unchanged
in both failure cases (no chat is created). -/
theorem chat_lookup_failure_amended
    (store : Store) (uid cid : String) (fm : Option String) (nid : String)
    (ack : Bool) (huid : isUUID uid = true) (hne : cid ≠ "")
    (habs : isUUID cid = false ∨
      store.chats.any (fun c => c.chat_id == cid) = false) :
    get_or_create_chat store uid (some cid) fm nid ack =
      (.error (.valueError ("Invalid chat_id format: " ++ cid)), store) := by
  unfold get_or_create_chat lookupChatInner
  rcases habs with h | h
  · simp [huid, hne, h]
  · cases hb : isUUID cid <;> simp [huid, hne, h, hb]

/-- Witness for C6 amended: a well-formed identifier absent from a
non-empty store is rejected without creating a chat. -/
theorem chat_lookup_failure_amended_witness :
    get_or_create_chat ⟨[⟨uuidD, uuidA, none⟩], []⟩ uuidA (some uuidC) none uuidB
        true =
      (.error (.valueError ("Invalid chat_id format: " ++ uuidC)),
       ⟨[⟨uuidD, uuidA, none⟩], []⟩) :=
  chat_lookup_failure_amended ⟨[⟨uuidD, uuidA, none⟩], []⟩ uuidA uuidC none uuidB
    true (by decide) (by decide) (Or.inr (by decide))

/-- `"".join` over a list with one trailing element. -/
theorem string_join_append_single (l : List String) (x : String) :
    String.join (l ++ [x]) = String.join l ++ x := by
  simp [String.join, List.foldl_append]

/-- A string that strips to the empty string is whitespace-only. -/
theorem pyStrip_eq_empty_all_space (s : String) (h : pyStrip s = "") :
    ∀ c ∈ s.toList, pyIsSpace c = true := by
  intro c hc
  have hl : pyStripL s.toList = [] := congrArg String.toList h
  unfold pyStripL at hl
  have h2 := List.reverse_eq_nil_iff.mp hl
  have h3 := List.dropWhile_eq_nil_iff.mp h2
  have h4 : ∀ x ∈ s.toList.dropWhile pyIsSpace, pyIsSpace x = true :=
    fun x hx => h3 x (List.mem_reverse.mpr hx)
  rw [← List.takeWhile_append_dropWhile (p := pyIsSpace) (l := s.toList)] at hc
  rcases List.mem_append.mp hc with h5 | h5
  · exact List.mem_takeWhile_imp h5
  · exact h4 c h5

/-- The apology chunk keeps the accumulated response non-whitespace. -/
theorem apology_strip_nonempty (chunks : List String) (msg : String) :
    pyStrip (String.join (chunks ++ [apologyOf msg])) ≠ "" := by
  intro h
  have hall := pyStrip_eq_empty_all_space _ h
  have hI : 'I' ∈ (String.join (chunks ++ [apologyOf msg])).toList := by
    rw [string_join_append_single]
    have hsplit : (String.join chunks ++ apologyOf msg).toList =
        (String.join chunks).toList ++ (apologyOf msg).toList := String.data_append ..
    rw [hsplit]
    refine List.mem_append.mpr (Or.inr ?_)
    have hap : (apologyOf msg).toList =
        "I apologize, but I encountered an error: ".toList ++ msg.toList :=
      String.data_append ..
    rw [hap]
    exact List.mem_append.mpr (Or.inl (by decide))
  exact absurd (hall _ hI) (by decide)

/-- Concrete turn input for the C7 counterexample: the agent raises after
one chunk; every insert is acknowledged. -/
def w7Inp : TurnInput :=
  { user_id := uuidA, chat_id := none, message := "hi", newChatId := uuidB,
    userMessageId := uuidC, assistantMessageId := uuidD, createdUser := 1000,
    chatInsertAck := true, userInsertAck := true, assistantInsertAck := true,
    agent := ⟨["Hel"], .raised "boom"⟩ }

set_option maxRecDepth 4096 in
/-- Counterexample to C7 as stated: when the agent raises mid-stream, the
exception is caught inside `chat_streaming`, not by the orchestration
core; the apology is yielded as a normal `message` event (no `error`
event), and the turn is persisted: two messages are saved, with the
apology inside the assistant content — not zero. -/
theorem agent_exception_counterexample :
    event_generator ⟨[], []⟩ w7Inp 10 =
      ([SSEEvent.message "Hel", SSEEvent.message (apologyOf "boom"),
        SSEEvent.metadata uuidB uuidD 1001],
       .completed,
       ⟨[⟨uuidB, uuidA, some "hi"⟩],
        [⟨uuidB, uuidC, "user", "hi", 1000⟩,
         ⟨uuidB, uuidD, "assistant", "Hel" ++ apologyOf "boom", 1001⟩]⟩) ∧
    (event_generator ⟨[], []⟩ w7Inp 10).2.2.history.length = 2 := by decide

/-- C7 amended: an exception (other than cancellation) raised by the
agent mid-stream is caught inside the agent's streaming wrapper, not by
the orchestration core; it is surfaced to the caller as one final apology
chunk — a normal `message` event, not an `error` event — after which the
turn completes normally and IS persisted: two messages are saved, the
assistant content ending with the apology text, followed by a `metadata`
event.  (The orchestration core's own mid-stream `except` branch only
handles exceptions that escape the wrapper, which agent errors do not.) -/
theorem agent_exception_apology_persisted
    (store : Store) (inp : TurnInput) (limit : Nat) (cid : String) (store0 : Store)
    (msg : String)
    (hres : get_or_create_chat store inp.user_id inp.chat_id
      (if inp.chat_id.isNone then some inp.message else none)
      inp.newChatId inp.chatInsertAck = (.ok cid, store0))
    (hcid : isUUID cid = true)
    (hraised : inp.agent.ending = .raised msg)
    (hu : isUUID inp.userMessageId = true)
    (ha : isUUID inp.assistantMessageId = true)
    (hack1 : inp.userInsertAck = true)
    (hack2 : inp.assistantInsertAck = true) :
    event_generator store inp limit =
      ((inp.agent.deltas.filter (fun d => d ≠ "") ++ [apologyOf msg]).map
          SSEEvent.message ++
        [SSEEvent.metadata cid inp.assistantMessageId (inp.createdUser + 1)],
       .completed,
       { store0 with history := store.history ++
          [⟨cid, inp.userMessageId, "user", inp.message, inp.createdUser⟩,
           ⟨cid, inp.assistantMessageId, "assistant",
             String.join (inp.agent.deltas.filter (fun d => d ≠ "") ++
               [apologyOf msg]),
             inp.createdUser + 1⟩] }) := by
  have hcs : chat_streaming inp.agent =
      (inp.agent.deltas.filter (fun d => d ≠ "") ++ [apologyOf msg],
       .completedEnd) := by
    unfold chat_streaming
    rw [hraised]
  have h := event_generator_success_eq store inp limit cid store0 hres hcid
    (by rw [hcs]) (by rw [hcs]; exact apology_strip_nonempty _ msg)
    hu ha hack1 hack2
  rw [hcs] at h
  exact h

/-- Concrete turn input for the C7 amended witness: the agent raises
before emitting anything. -/
def w7bInp : TurnInput :=
  { user_id := uuidA, chat_id := none, message := "hey", newChatId := uuidB,
    userMessageId := uuidC, assistantMessageId := uuidD, createdUser := 2000,
    chatInsertAck := true, userInsertAck := true, assistantInsertAck := true,
    agent := ⟨[], .raised "bad"⟩ }

/-- Witness for C7 amended: a turn in which the agent raises immediately
persists the apology as the assistant message. -/
theorem agent_exception_apology_persisted_witness :
    event_generator ⟨[], []⟩ w7bInp 10 =
      ([SSEEvent.message (apologyOf "bad"), SSEEvent.metadata uuidB uuidD 2001],
       .completed,
       ⟨[⟨uuidB, uuidA, some "hey"⟩],
        [⟨uuidB, uuidC, "user", "hey", 2000⟩,
         ⟨uuidB, uuidD, "assistant", apologyOf "bad", 2001⟩]⟩) := by
  have h := agent_exception_apology_persisted ⟨[], []⟩ w7bInp 10 uuidB
    ⟨[⟨uuidB, uuidA, some "hey"⟩], []⟩ "bad"
    (by decide) (by decide) rfl (by decide) (by decide) rfl rfl
  exact h.trans (by decide)

/-- C8: when the client's cancellation arrives mid-stream, the generator
propagates it (outcome `cancelled`: the `except asyncio.CancelledError`
branch re-raises and the surrounding handlers catch only `ValueError` and
`Exception`, so it is not converted into a fault of the generator): the
only events emitted are the `message` events of the chunks forwarded
before the cancellation point — no `metadata` event and no `error` event —
and nothing is persisted: the message history equals the one before the
turn. -/
theorem cancellation_aborts_turn
    (store : Store) (inp : TurnInput) (limit : Nat) (cid : String) (store0 : Store)
    (hres : get_or_create_chat store inp.user_id inp.chat_id
      (if inp.chat_id.isNone then some inp.message else none)
      inp.newChatId inp.chatInsertAck = (.ok cid, store0))
    (hcid : isUUID cid = true)
    (hcancel : inp.agent.ending = .cancelled) :
    event_generator store inp limit =
      ((inp.agent.deltas.filter (fun d => d ≠ "")).map SSEEvent.message,
       .cancelled, store0) ∧
    store0.history = store.history := by
  have hhist0 : store0.history = store.history := by
    have h := get_or_create_history_eq store inp.user_id inp.chat_id
      (if inp.chat_id.isNone then some inp.message else none)
      inp.newChatId inp.chatInsertAck
    rw [hres] at h
    exact h
  refine ⟨?_, hhist0⟩
  have hcs : chat_streaming inp.agent =
      (inp.agent.deltas.filter (fun d => d ≠ ""), .cancelledEnd) := by
    unfold chat_streaming
    rw [hcancel]
  unfold event_generator
  rw [hres, hcs]
  simp [get_chat_history, hcid]

/-- Concrete turn input for the C8 witness: the client disconnects after
two of the five fragments were delivered. -/
def w8Inp : TurnInput :=
  { user_id := uuidA, chat_id := none, message := "hi", newChatId := uuidB,
    userMessageId := uuidC, assistantMessageId := uuidD, createdUser := 1000,
    chatInsertAck := true, userInsertAck := true, assistantInsertAck := true,
    agent := ⟨["f1", "f2"], .cancelled⟩ }

/-- Witness for C8: cancellation after two fragments leaves the history
empty and emits only the two forwarded chunks. -/
theorem cancellation_aborts_turn_witness :
    event_generator ⟨[], []⟩ w8Inp 10 =
      ((w8Inp.agent.deltas.filter (fun d => d ≠ "")).map SSEEvent.message,
       .cancelled, ⟨[⟨uuidB, uuidA, some "hi"⟩], []⟩) ∧
    (⟨[⟨uuidB, uuidA, some "hi"⟩], []⟩ : Store).history =
      (⟨[], []⟩ : Store).history :=
  cancellation_aborts_turn ⟨[], []⟩ w8Inp 10 uuidB ⟨[⟨uuidB, uuidA, some "hi"⟩], []⟩
    (by decide) (by decide) rfl

/-- C9: every tool's execute is total at its interface: whatever the
backend outcome (raised exception, unavailable engine, empty row set, or
data), it returns a string and never raises — the result is always `.ok`,
raised backend or formatting errors become the fixed human-readable
apology strings, empty result sets become the not-found messages, and a
missing golf query engine becomes the unavailability message. -/
theorem tools_execute_total :
    (∀ r : Except PyErr (List ScorecardRow), (scorecardExecute r).isOk = true) ∧
    (∀ e, scorecardExecute (.error e) = .ok scorecardErrorMsg) ∧
    (∀ rows e, generateMarkdownScorecard rows = .error e →
      scorecardExecute (.ok rows) = .ok scorecardErrorMsg) ∧
    scorecardExecute (.ok []) =
      .ok "No scorecard information was found for that course." ∧
    (∀ r : Except PyErr (List TeeRow), (teeExecute r).isOk = true) ∧
    (∀ e, teeExecute (.error e) = .ok teeErrorMsg) ∧
    (∀ rows e, generateMarkdownTees rows = .error e →
      teeExecute (.ok rows) = .ok teeErrorMsg) ∧
    teeExecute (.ok []) = .ok "No tee details were found for that course." ∧
    (∀ q : Option (Except PyErr GolfQueryResponse), (golfExecute q).isOk = true) ∧
    golfExecute none = .ok golfUnavailableMsg ∧
    (∀ e, golfExecute (some (.error e)) =
      .ok ("Sorry, I encountered an error while searching golf courses: " ++
        e.message)) := by
  refine ⟨?_, fun e => rfl, ?_, rfl, ?_, fun e => rfl, ?_, rfl, ?_, rfl, fun e => rfl⟩
  · intro r
    unfold scorecardExecute
    cases h : r.bind generateMarkdownScorecard <;> rfl
  · intro rows e h
    unfold scorecardExecute
    have hb : (Except.ok rows : Except PyErr (List ScorecardRow)).bind
        generateMarkdownScorecard = .error e := h
    rw [hb]
  · intro r
    unfold teeExecute
    cases h : r.bind generateMarkdownTees <;> rfl
  · intro rows e h
    unfold teeExecute
    have hb : (Except.ok rows : Except PyErr (List TeeRow)).bind
        generateMarkdownTees = .error e := h
    rw [hb]
  · intro q
    rcases q with _ | q
    · rfl
    · rcases q with q | e <;> rfl

/-- Witness for C9: a scorecard row and a tee row whose CSV fields do not
parse make the generators raise internally, and both tools still answer
with their fixed apology strings. -/
theorem tools_execute_total_witness :
    scorecardExecute (.ok [⟨"x", "", "", "", "", "", "", "", "", ""⟩]) =
      .ok scorecardErrorMsg ∧
    teeExecute (.ok [⟨some "Blue", "x", none, none, none, none, none⟩]) =
      .ok teeErrorMsg :=
  ⟨tools_execute_total.2.2.1 [⟨"x", "", "", "", "", "", "", "", "", ""⟩]
      (.valueError "invalid literal for int() with base 10: x") (by decide),
   tools_execute_total.2.2.2.2.2.2.1 [⟨some "Blue", "x", none, none, none, none, none⟩]
      (.valueError "invalid literal for int() with base 10: x") (by decide)⟩

/-- `_pad` always produces exactly `num_holes` entries: the input is
truncated to `num_holes` and then right-padded with zeros up to it. -/
theorem padTo_length (n : Nat) (values : List Int) : (padTo n values).length = n := by
  unfold padTo
  simp only [List.length_map, List.length_append, List.length_replicate,
    List.length_take]
  omega

/-- C10: in `_generate_markdown_scorecard`, after `num_holes` is computed
from the four decoded per-hole lists, each of the four lists is padded or
truncated by `_pad` to exactly `num_holes` entries, so the per-hole table
rows may index every one of them at any position `idx < num_holes`
without going out of range — for any four input lists, including lists of
four different lengths. -/
theorem scorecard_pad_safety
    (men_hcp men_par women_hcp women_par : List Int) (idx : Nat)
    (hidx : idx < numHolesOf men_hcp men_par women_hcp women_par) :
    (padTo (numHolesOf men_hcp men_par women_hcp women_par) men_hcp).length =
      numHolesOf men_hcp men_par women_hcp women_par ∧
    (padTo (numHolesOf men_hcp men_par women_hcp women_par) men_par).length =
      numHolesOf men_hcp men_par women_hcp women_par ∧
    (padTo (numHolesOf men_hcp men_par women_hcp women_par) women_hcp).length =
      numHolesOf men_hcp men_par women_hcp women_par ∧
    (padTo (numHolesOf men_hcp men_par women_hcp women_par) women_par).length =
      numHolesOf men_hcp men_par women_hcp women_par ∧
    idx < (padTo (numHolesOf men_hcp men_par women_hcp women_par) men_hcp).length ∧
    idx < (padTo (numHolesOf men_hcp men_par women_hcp women_par) men_par).length ∧
    idx < (padTo (numHolesOf men_hcp men_par women_hcp women_par) women_hcp).length ∧
    idx < (padTo (numHolesOf men_hcp men_par women_hcp women_par) women_par).length := by
  have h1 := padTo_length (numHolesOf men_hcp men_par women_hcp women_par) men_hcp
  have h2 := padTo_length (numHolesOf men_hcp men_par women_hcp women_par) men_par
  have h3 := padTo_length (numHolesOf men_hcp men_par women_hcp women_par) women_hcp
  have h4 := padTo_length (numHolesOf men_hcp men_par women_hcp women_par) women_par
  exact ⟨h1, h2, h3, h4, by omega, by omega, by omega, by omega⟩

/-- Witness for C10: four decoded lists of four different lengths and the
last in-range index. -/
theorem scorecard_pad_safety_witness :
    (padTo (numHolesOf [] [4, 5] [1] [4, 5, 4]) []).length =
      numHolesOf [] [4, 5] [1] [4, 5, 4] ∧
    (padTo (numHolesOf [] [4, 5] [1] [4, 5, 4]) [4, 5]).length =
      numHolesOf [] [4, 5] [1] [4, 5, 4] ∧
    (padTo (numHolesOf [] [4, 5] [1] [4, 5, 4]) [1]).length =
      numHolesOf [] [4, 5] [1] [4, 5, 4] ∧
    (padTo (numHolesOf [] [4, 5] [1] [4, 5, 4]) [4, 5, 4]).length =
      numHolesOf [] [4, 5] [1] [4, 5, 4] ∧
    2 < (padTo (numHolesOf [] [4, 5] [1] [4, 5, 4]) []).length ∧
    2 < (padTo (numHolesOf [] [4, 5] [1] [4, 5, 4]) [4, 5]).length ∧
    2 < (padTo (numHolesOf [] [4, 5] [1] [4, 5, 4]) [1]).length ∧
    2 < (padTo (numHolesOf [] [4, 5] [1] [4, 5, 4]) [4, 5, 4]).length :=
  scorecard_pad_safety [] [4, 5] [1] [4, 5, 4] 2 (by decide)
